import Mathlib

/-!
Verification of the credential / login core of the Token Management System
(web version).  The repository contains several near-duplicate revisions of
the same Express server:

* `server.js`, first revision: base64 "hashing" (`simpleHash` /
  `simpleCompare`), login without any migration branch, seeding by
  per-username upsert (ON CONFLICT DO NOTHING).
* `server.js`, second revision: no login route at all; seeding by
  per-username upsert that stores the plaintext default secrets directly.
* `part_000`, base64 revision: `comparePassword` (base64 only),
  delete-and-recreate seeding, login with the legacy-default migration
  branch (re-encoding with base64).
* `part_000`, bcrypt revision: bcrypt `hashPassword` / `verifyPassword`,
  seed-only-if-empty, login with a missing-field 400 check and the
  legacy-default migration branch (re-encoding with bcrypt).
* `part_001`: base64 `simpleHash`, seed-only-if-empty, login with the
  legacy-default migration branch, user creation and change-password.

The account store (the SQL `users` table) is modelled as a list of rows;
`SELECT ... WHERE username = $1` is `List.find?`, and
`UPDATE users SET password = $1 WHERE username = $2` maps over the list.
HTTP responses are modelled by their status code and JSON body fields.
-/

/-- A row of the `users` table.  `id`, `status` and `created_at` play no
role in the login / migration logic and are omitted. -/
structure UserRow where
  username : String
  password : String
  role : String
deriving DecidableEq, Repr

/-- The base64 alphabet used by `Buffer.toString('base64')`. -/
def base64Alphabet : List Char :=
  ['A','B','C','D','E','F','G','H','I','J','K','L','M','N','O','P','Q','R',
   'S','T','U','V','W','X','Y','Z','a','b','c','d','e','f','g','h','i','j',
   'k','l','m','n','o','p','q','r','s','t','u','v','w','x','y','z','0','1',
   '2','3','4','5','6','7','8','9','+','/']

/-- Look up a 6-bit group in the base64 alphabet. -/
def sextet (n : Nat) : Char := base64Alphabet.getD n 'A'

/-- The UTF-8 bytes of one character (`Buffer.from` encodes the JS string
as UTF-8). -/
def utf8EncodeChar (c : Char) : List Nat :=
  let n := c.toNat
  if n < 0x80 then [n]
  else if n < 0x800 then [0xC0 + n / 64, 0x80 + n % 64]
  else if n < 0x10000 then
    [0xE0 + n / 4096, 0x80 + n / 64 % 64, 0x80 + n % 64]
  else
    [0xF0 + n / 262144, 0x80 + n / 4096 % 64, 0x80 + n / 64 % 64, 0x80 + n % 64]

/-- The UTF-8 byte sequence of a string. -/
def utf8Bytes (s : String) : List Nat :=
  (s.data.map utf8EncodeChar).flatten

/-- Standard base64 of a byte sequence, with `=` padding: the encoding
performed by `Buffer.from(password).toString('base64')`. -/
def b64EncodeBytes : List Nat → List Char
  | [] => []
  | [b1] => [sextet (b1 / 4), sextet (b1 % 4 * 16), '=', '=']
  | [b1, b2] => [sextet (b1 / 4), sextet (b1 % 4 * 16 + b2 / 16), sextet (b2 % 16 * 4), '=']
  | b1 :: b2 :: b3 :: rest =>
      sextet (b1 / 4) :: sextet (b1 % 4 * 16 + b2 / 16) ::
      sextet (b2 % 16 * 4 + b3 / 64) :: sextet (b3 % 64) :: b64EncodeBytes rest

/-- `simpleHash` (server.js, part_000 base64 revision, part_001):
`Buffer.from(password).toString('base64')` — the legacy reversible
base64 encoder. -/
def simpleHash (password : String) : String :=
  String.mk (b64EncodeBytes (utf8Bytes password))

/-- `simpleCompare` (server.js first revision):
`simpleHash(plainPassword) === hashedPassword`. -/
def simpleCompare (plainPassword hashedPassword : String) : Bool :=
  simpleHash plainPassword == hashedPassword

/-- `comparePassword` (part_000 base64 revision): tries the base64
comparison and otherwise returns false (the bcrypt fallback is a comment
in the source; the function never throws). -/
def comparePassword (plainPassword hashedPassword : String) : Bool :=
  simpleHash plainPassword == hashedPassword

/-- The fixed `$2b$10$` shape marker of a bcrypt stored representation
(cost 10 is hardcoded in `hashPassword`). -/
def bcryptSig : List Char := ['$', '2', 'b', '$', '1', '0', '$']

/-- Modelled from the spec: the strong adaptive hash scheme.  The bcrypt
revision calls `bcrypt.hash(password, 10)`, an external library whose
internals are not in `src/`.  Per the spec the encoder is randomized per
call by an internal salt and produces an opaque representation that only
the matching `verify` recognises.  The model records the salt and an
injective, `$`-free encoding of the plaintext behind the bcrypt shape
marker; only the contract (round-trip with `verifyPassword`, output shape
disjoint from base64 output) is relied upon. -/
def hashPassword (salt : Nat) (password : String) : String :=
  String.mk (bcryptSig ++ ((toString salt).data ++ '$' :: (simpleHash password).data))

/-- Modelled from the spec: `bcrypt.compare(password, hash)` (part_000
bcrypt revision).  It accepts exactly the representations produced by
`hashPassword` from the same plaintext, and returns false (it does not
throw) on malformed or foreign-scheme stored representations. -/
def verifyPassword (password hash : String) : Bool :=
  bcryptSig.isPrefixOf hash.data && ('$' :: (simpleHash password).data).isSuffixOf hash.data

/-- `SELECT * FROM users WHERE username = $1` (unique column, so at most
one row): the first row with the given username. -/
def findUser (store : List UserRow) (u : String) : Option UserRow :=
  store.find? (fun a => a.username == u)

/-- `UPDATE users SET password = $1 WHERE username = $2`. -/
def updateUserPassword (store : List UserRow) (u newPassword : String) : List UserRow :=
  store.map (fun a => if a.username == u then { a with password := newPassword } else a)

/-- The hardcoded `defaultPasswords` legacy table of the login routes. -/
def defaultPasswords (username : String) : Option String :=
  if username == "admin" then some "admin123"
  else if username == "user" then some "user123"
  else if username == "agent" then some "agent123"
  else if username == "executive" then some "executive123"
  else none

/-- The hardcoded `defaultUsers` seed list (username, plaintext, role). -/
def defaultUsers : List (String × String × String) :=
  [("admin", "admin123", "Admin"), ("user", "user123", "User"),
   ("agent", "agent123", "Agent"), ("executive", "executive123", "Executive")]

/-- An HTTP response: status code plus the JSON body fields the login and
account routes produce. -/
structure Response where
  status : Nat
  message : Option String := none
  username : Option String := none
  role : Option String := none
  error : Option String := none
deriving DecidableEq, Repr

/-- The generic 401 authentication failure of every login route. -/
def authFail : Response := { status := 401, error := some "Invalid username or password" }

/-- The 500 response of the route-level catch blocks. -/
def serverError : Response := { status := 500, error := some "Internal server error" }

/-- The 400 response of the bcrypt revision's missing-field check. -/
def missingFields : Response := { status := 400, error := some "Username and password are required" }

/-- The 200 body of a plain (non-migrated) successful login. -/
def loginOk (u r : String) : Response :=
  { status := 200, message := some "Login successful", username := some u, role := some r }

/-- The 200 body of a migrated successful login. -/
def loginMigrated (u r : String) : Response :=
  { status := 200, message := some "Login successful (password migrated)",
    username := some u, role := some r }

/-- `POST /api/login` of part_001 (lines 109–132) and of the part_000
base64 revision (lines 188–255); the two routes are line-for-line the same
computation.  Request fields are `Option String`: a missing username makes
the SQL lookup match no row (401), and a missing password reaches
`Buffer.from(undefined)`, which throws and is caught as a 500. -/
def loginMigrateB64 (store : List UserRow) (username password : Option String) :
    Response × List UserRow :=
  match username with
  | none => (authFail, store)
  | some u =>
    match findUser store u with
    | none => (authFail, store)
    | some user =>
      match password with
      | none => (serverError, store)
      | some p =>
        if simpleHash p == user.password then (loginOk user.username user.role, store)
        else
          match defaultPasswords u with
          | some d =>
            if d == p then
              (loginMigrated user.username user.role, updateUserPassword store u (simpleHash p))
            else (authFail, store)
          | none => (authFail, store)

/-- `POST /api/login` of the first revision of server.js (lines 307–342):
no migration branch, `simpleCompare` only. -/
def loginServerJs (store : List UserRow) (username password : Option String) :
    Response × List UserRow :=
  match username with
  | none => (authFail, store)
  | some u =>
    match findUser store u with
    | none => (authFail, store)
    | some user =>
      match password with
      | none => (serverError, store)
      | some p =>
        if simpleCompare p user.password then (loginOk user.username user.role, store)
        else (authFail, store)

/-- `POST /api/login` of the part_000 bcrypt revision (lines 676–725).
`if (!username || !password)` rejects missing fields *and* empty strings
(JS falsiness) with 400 before anything else runs.  `salt` is the salt the
bcrypt library would draw for this call's `hashPassword`. -/
def loginBcrypt (salt : Nat) (store : List UserRow) (username password : Option String) :
    Response × List UserRow :=
  match username, password with
  | some u, some p =>
    if u == "" || p == "" then (missingFields, store)
    else
      match findUser store u with
      | none => (authFail, store)
      | some user =>
        if verifyPassword p user.password then (loginOk user.username user.role, store)
        else
          match defaultPasswords u with
          | some d =>
            if d == p then
              (loginMigrated user.username user.role, updateUserPassword store u (hashPassword salt p))
            else (authFail, store)
          | none => (authFail, store)
  | _, _ => (missingFields, store)

/-- `PUT /api/users/change-password` of part_001 (lines 189–204). -/
def changePasswordP001 (store : List UserRow) (username currentPassword newPassword : String) :
    Response × List UserRow :=
  match findUser store username with
  | none => ({ status := 404, error := some "User not found" }, store)
  | some user =>
    if simpleHash currentPassword == user.password then
      ({ status := 200, message := some "Password changed successfully" },
        updateUserPassword store username (simpleHash newPassword))
    else ({ status := 401, error := some "Incorrect current password" }, store)

/-- `POST /api/users` of part_001 (lines 168–178): the unique-username
constraint makes an insert with an existing username fail with 23505,
surfaced as 409; otherwise the row is inserted with the encoded password. -/
def createUserP001 (store : List UserRow) (username password role : String) :
    Response × List UserRow :=
  if (findUser store username).isSome then
    ({ status := 409, error := some "Username already exists" }, store)
  else
    ({ status := 201, username := some username, role := some role },
      store ++ [⟨username, simpleHash password, role⟩])

/-- A seed row for the base64 revisions' seeding: the default secret
encoded with `simpleHash`. -/
def seedRow (d : String × String × String) : UserRow :=
  ⟨d.1, simpleHash d.2.1, d.2.2⟩

/-- A seed row of the second revision of server.js (lines 459–473): the
plaintext default secret is inserted as-is, with no encoding. -/
def plainSeedRow (d : String × String × String) : UserRow :=
  ⟨d.1, d.2.1, d.2.2⟩

/-- The seed names deleted by the part_000 base64 revision's
initialization. -/
def seedNames : List String := ["admin", "user", "agent", "executive"]

/-- `initializeDatabase` of part_001 (lines 67–82): seed the four default
users, base64-encoded, only when `SELECT COUNT(*) FROM users` is zero. -/
def initializeDatabaseP001 (store : List UserRow) : List UserRow :=
  if store.length == 0 then defaultUsers.map seedRow else store

/-- `initializeDatabase` of the part_000 base64 revision (lines 90–110):
always delete the four seed usernames, then recreate them with
base64-encoded defaults. -/
def initializeDatabaseBase64 (store : List UserRow) : List UserRow :=
  store.filter (fun a => !(seedNames.contains a.username)) ++ defaultUsers.map seedRow

/-- `INSERT ... ON CONFLICT (username) DO NOTHING`: append the row unless
its username already exists. -/
def upsertIgnore (store : List UserRow) (row : UserRow) : List UserRow :=
  if (findUser store row.username).isSome then store else store ++ [row]

/-- `initializeDatabase` of the first revision of server.js (lines 73–90):
upsert each seed user (base64-encoded default) regardless of whether the
store is empty. -/
def initializeDatabaseServerJs (store : List UserRow) : List UserRow :=
  defaultUsers.foldl (fun s d => upsertIgnore s (seedRow d)) store

/-- `initializeDatabase` of the second revision of server.js (lines
416–479): upsert each seed user with the **plaintext** default secret. -/
def initializeDatabaseServerJs2 (store : List UserRow) : List UserRow :=
  defaultUsers.foldl (fun s d => upsertIgnore s (plainSeedRow d)) store

/-! ### Helper lemmas about the two encoding schemes -/

theorem sextet_mem (n : Nat) : sextet n ∈ base64Alphabet := by
  unfold sextet
  rcases Nat.lt_or_ge n base64Alphabet.length with h | h
  · rw [List.getD_eq_getElem _ _ h]
    exact List.getElem_mem h
  · rw [List.getD_eq_default _ _ h]
    decide

theorem mem_b64EncodeBytes :
    ∀ (bs : List Nat) (c : Char), c ∈ b64EncodeBytes bs → c ∈ base64Alphabet ∨ c = '='
  | [], c, h => by simp [b64EncodeBytes] at h
  | [b1], c, h => by
    simp only [b64EncodeBytes, List.mem_cons, List.not_mem_nil, or_false] at h
    rcases h with h | h | h | h
    · exact Or.inl (h ▸ sextet_mem _)
    · exact Or.inl (h ▸ sextet_mem _)
    · exact Or.inr h
    · exact Or.inr h
  | [b1, b2], c, h => by
    simp only [b64EncodeBytes, List.mem_cons, List.not_mem_nil, or_false] at h
    rcases h with h | h | h | h
    · exact Or.inl (h ▸ sextet_mem _)
    · exact Or.inl (h ▸ sextet_mem _)
    · exact Or.inl (h ▸ sextet_mem _)
    · exact Or.inr h
  | b1 :: b2 :: b3 :: rest, c, h => by
    simp only [b64EncodeBytes, List.mem_cons] at h
    rcases h with h | h | h | h | h
    · exact Or.inl (h ▸ sextet_mem _)
    · exact Or.inl (h ▸ sextet_mem _)
    · exact Or.inl (h ▸ sextet_mem _)
    · exact Or.inl (h ▸ sextet_mem _)
    · exact mem_b64EncodeBytes rest c h

theorem dollar_not_mem_b64 (bs : List Nat) : '$' ∉ b64EncodeBytes bs := by
  intro h
  rcases mem_b64EncodeBytes bs '$' h with h' | h' <;> revert h' <;> decide

/-- A bcrypt-scheme representation is never a base64-scheme representation:
its first character is `$`, which base64 output cannot contain. -/
theorem hashPassword_ne_simpleHash (salt : Nat) (p q : String) :
    hashPassword salt p ≠ simpleHash q := by
  intro h
  have hd : (hashPassword salt p).data = (simpleHash q).data := congrArg String.data h
  have hmem : '$' ∈ (simpleHash q).data := by
    rw [← hd]
    show '$' ∈ bcryptSig ++ _
    exact List.mem_append_left _ (by decide)
  exact dollar_not_mem_b64 (utf8Bytes q) hmem

/-- The bcrypt verifier rejects every base64-scheme representation. -/
theorem verifyPassword_simpleHash (p q : String) :
    verifyPassword p (simpleHash q) = false := by
  have hpre : bcryptSig.isPrefixOf (simpleHash q).data = false := by
    rw [Bool.eq_false_iff]
    intro hc
    have := List.isPrefixOf_iff_prefix.mp hc
    rcases this with ⟨t, ht⟩
    have hmem : '$' ∈ (simpleHash q).data := by
      rw [← ht]
      exact List.mem_append_left _ (by decide)
    exact dollar_not_mem_b64 (utf8Bytes q) hmem
  show (bcryptSig.isPrefixOf (simpleHash q).data && _) = false
  rw [hpre, Bool.false_and]

/-- The bcrypt verifier accepts every representation `hashPassword`
produced from the same plaintext, whatever the salt (round trip). -/
theorem verifyPassword_hashPassword (salt : Nat) (p : String) :
    verifyPassword p (hashPassword salt p) = true := by
  show (bcryptSig.isPrefixOf (bcryptSig ++ _) && ('$' :: (simpleHash p).data).isSuffixOf (bcryptSig ++ ((toString salt).data ++ '$' :: (simpleHash p).data))) = true
  rw [ List.isPrefixOf_iff_prefix.mpr (List.prefix_append _ _), Bool.true_and,
    List.isSuffixOf_iff_suffix]
  rw [show bcryptSig ++ ((toString salt).data ++ '$' :: (simpleHash p).data)
      = (bcryptSig ++ (toString salt).data) ++ ('$' :: (simpleHash p).data) by
    rw [List.append_assoc]]
  exact List.suffix_append _ _

/-- The base64 comparators reject every bcrypt-scheme representation. -/
theorem comparePassword_hashPassword (salt : Nat) (p q : String) :
    comparePassword p (hashPassword salt q) = false := by
  unfold comparePassword
  rw [beq_eq_false_iff_ne]
  intro h
  exact hashPassword_ne_simpleHash salt q p h.symm

theorem simpleCompare_hashPassword (salt : Nat) (p q : String) :
    simpleCompare p (hashPassword salt q) = false :=
  comparePassword_hashPassword salt p q

/-- `List.find?` commutes with mapping by a predicate-preserving function. -/
theorem find?_map_comm {α : Type} (p : α → Bool) (f : α → α) (hp : ∀ a, p (f a) = p a) :
    ∀ l : List α, List.find? p (l.map f) = (List.find? p l).map f := by
  intro l
  induction l with
  | nil => rfl
  | cons a t ih =>
    rw [List.map_cons, List.find?_cons, List.find?_cons, hp]
    cases h : p a
    · exact ih
    · rfl

/-- Looking up `u` after updating `u`'s password sees the updated row. -/
theorem findUser_updateUserPassword (store : List UserRow) (u pw : String) :
    findUser (updateUserPassword store u pw) u
      = (findUser store u).map (fun a => { a with password := pw }) := by
  have hp : ∀ a : UserRow,
      ((if a.username == u then ({ a with password := pw } : UserRow) else a).username == u)
        = (a.username == u) := by
    intro a
    by_cases h : (a.username == u) = true
    · rw [if_pos h]
    · rw [if_neg h]
  have := find?_map_comm (fun a : UserRow => a.username == u)
    (fun a => if a.username == u then { a with password := pw } else a) hp store
  unfold findUser updateUserPassword
  rw [this]
  cases hf : List.find? (fun a : UserRow => a.username == u) store with
  | none => rfl
  | some a =>
    have ha : (a.username == u) = true := by
      have h2 := List.find?_some hf
      exact h2
    show some (if (a.username == u) = true then ({ a with password := pw } : UserRow) else a)
      = some ({ a with password := pw } : UserRow)
    rw [if_pos ha]


/-- Reduced form of part_001 login when both fields are present. -/
theorem loginMigrateB64_some_some (store : List UserRow) (u p : String) :
    loginMigrateB64 store (some u) (some p) =
      match findUser store u with
      | none => (authFail, store)
      | some user =>
        if simpleHash p == user.password then (loginOk user.username user.role, store)
        else
          match defaultPasswords u with
          | some d =>
            if d == p then
              (loginMigrated user.username user.role, updateUserPassword store u (simpleHash p))
            else (authFail, store)
          | none => (authFail, store) := rfl

/-- Reduced form of part_001 login when the username field is missing. -/
theorem loginMigrateB64_none (store : List UserRow) (p? : Option String) :
    loginMigrateB64 store none p? = (authFail, store) := rfl

/-- Reduced form of part_001 login when the password field is missing. -/
theorem loginMigrateB64_some_none (store : List UserRow) (u : String) :
    loginMigrateB64 store (some u) none =
      match findUser store u with
      | none => (authFail, store)
      | some _ => (serverError, store) := rfl

/-- Reduced form of the server.js login when both fields are present. -/
theorem loginServerJs_some_some (store : List UserRow) (u p : String) :
    loginServerJs store (some u) (some p) =
      match findUser store u with
      | none => (authFail, store)
      | some user =>
        if simpleCompare p user.password then (loginOk user.username user.role, store)
        else (authFail, store) := rfl

/-- Reduced form of the bcrypt-revision login when both fields are present. -/
theorem loginBcrypt_some_some (salt : Nat) (store : List UserRow) (u p : String) :
    loginBcrypt salt store (some u) (some p) =
      (if u == "" || p == "" then (missingFields, store)
      else
        match findUser store u with
        | none => (authFail, store)
        | some user =>
          if verifyPassword p user.password then (loginOk user.username user.role, store)
          else
            match defaultPasswords u with
            | some d =>
              if d == p then
                (loginMigrated user.username user.role,
                  updateUserPassword store u (hashPassword salt p))
              else (authFail, store)
            | none => (authFail, store)) := rfl

/-! ### Claims -/

/-- C9: for every plaintext and each supported encoding scheme, verifying
a plaintext against that same scheme's encoding of it succeeds:
`simpleCompare p (simpleHash p) = true` (legacy base64 scheme) and
`verifyPassword p (hashPassword salt p) = true` (strong scheme, any salt). -/
theorem c9_roundtrip (p : String) (salt : Nat) :
    simpleCompare p (simpleHash p) = true ∧
    verifyPassword p (hashPassword salt p) = true := by
  constructor
  · unfold simpleCompare
    exact beq_self_eq_true _
  · exact verifyPassword_hashPassword salt p

/-- C2 counterexample: the claim says every verifier accepts a stored
representation produced from the same plaintext by *either* supported
scheme, but the bcrypt revision's `verifyPassword` rejects the legacy
base64 representation of "admin123", and the base64 comparator
`comparePassword` rejects a strong-scheme representation of "admin123". -/
theorem c2_counterexample :
    verifyPassword "admin123" (simpleHash "admin123") = false ∧
    comparePassword "admin123" (hashPassword 0 "admin123") = false := by
  decide

/-- C2 amended: each revision's verifier accepts exactly its own scheme's
representations.  The base64 comparators accept base64 representations of
the same plaintext and reject every strong-scheme representation; the
bcrypt verifier accepts strong-scheme representations of the same
plaintext (any salt) and rejects every base64 representation. -/
theorem c2_per_scheme_verification (p q : String) (salt : Nat) :
    comparePassword p (simpleHash p) = true ∧
    simpleCompare p (simpleHash p) = true ∧
    verifyPassword p (hashPassword salt p) = true ∧
    verifyPassword p (simpleHash q) = false ∧
    comparePassword p (hashPassword salt q) = false ∧
    simpleCompare p (hashPassword salt q) = false := by
  refine ⟨beq_self_eq_true _, beq_self_eq_true _, verifyPassword_hashPassword salt p,
    verifyPassword_simpleHash p q, comparePassword_hashPassword salt p q,
    simpleCompare_hashPassword salt p q⟩

/-- C4 counterexample: the second revision of server.js seeds the default
accounts with the plaintext secrets themselves — after initialization of
an empty store, the persisted credential of "admin" is the plaintext
"admin123", not an encoder output. -/
theorem c4_counterexample :
    initializeDatabaseServerJs2 [] =
      [⟨"admin", "admin123", "Admin"⟩, ⟨"user", "user123", "User"⟩,
       ⟨"agent", "agent123", "Agent"⟩, ⟨"executive", "executive123", "Executive"⟩] ∧
    "admin123" ≠ simpleHash "admin123" := by
  decide

/-- C4 amended: in part_001 every store write of the credential field —
bootstrap seeding, account creation, login migration, change-password —
persists only `simpleHash` of a request plaintext, never the plaintext
itself; the second revision of server.js, however, seeds the default
accounts with raw plaintext secrets. -/
theorem c4_encoded_writes :
    (initializeDatabaseP001 [] =
      [⟨"admin", simpleHash "admin123", "Admin"⟩, ⟨"user", simpleHash "user123", "User"⟩,
       ⟨"agent", simpleHash "agent123", "Agent"⟩,
       ⟨"executive", simpleHash "executive123", "Executive"⟩]) ∧
    (∀ store u p r, (createUserP001 store u p r).2 = store ∨
        (createUserP001 store u p r).2 = store ++ [⟨u, simpleHash p, r⟩]) ∧
    (∀ store u p, (loginMigrateB64 store (some u) (some p)).2 = store ∨
        (loginMigrateB64 store (some u) (some p)).2 = updateUserPassword store u (simpleHash p)) ∧
    (∀ store u cur nw, (changePasswordP001 store u cur nw).2 = store ∨
        (changePasswordP001 store u cur nw).2 = updateUserPassword store u (simpleHash nw)) := by
  refine ⟨rfl, ?_, ?_, ?_⟩
  · intro store u p r
    unfold createUserP001
    by_cases h : ((findUser store u).isSome = true)
    · rw [if_pos h]
      exact Or.inl rfl
    · rw [if_neg h]
      exact Or.inr rfl
  · intro store u p
    rw [loginMigrateB64_some_some]
    split
    · exact Or.inl rfl
    · split
      · exact Or.inl rfl
      · split
        · split
          · exact Or.inr rfl
          · exact Or.inl rfl
        · exact Or.inl rfl
  · intro store u cur nw
    unfold changePasswordP001
    split
    · exact Or.inl rfl
    · split
      · exact Or.inr rfl
      · exact Or.inl rfl

/-- C8 counterexample: the claim says seeding runs iff the store is empty
and a non-empty store is never modified, but the first revision of
server.js upserts the seed accounts into a non-empty store (here one that
only holds a custom account), and the part_000 base64 revision resets an
existing seed account's credential on every initialization. -/
theorem c8_counterexample :
    initializeDatabaseServerJs [⟨"existing", "secret", "User"⟩] =
      [⟨"existing", "secret", "User"⟩, ⟨"admin", simpleHash "admin123", "Admin"⟩,
       ⟨"user", simpleHash "user123", "User"⟩, ⟨"agent", simpleHash "agent123", "Agent"⟩,
       ⟨"executive", simpleHash "executive123", "Executive"⟩] ∧
    initializeDatabaseServerJs [⟨"existing", "secret", "User"⟩] ≠
      [⟨"existing", "secret", "User"⟩] ∧
    initializeDatabaseBase64 [⟨"admin", simpleHash "custom", "Admin"⟩] =
      [⟨"admin", simpleHash "admin123", "Admin"⟩, ⟨"user", simpleHash "user123", "User"⟩,
       ⟨"agent", simpleHash "agent123", "Agent"⟩,
       ⟨"executive", simpleHash "executive123", "Executive"⟩] ∧
    initializeDatabaseBase64 [⟨"admin", simpleHash "custom", "Admin"⟩] ≠
      [⟨"admin", simpleHash "custom", "Admin"⟩] := by
  decide

/-- C8 amended: in part_001 (and the bcrypt revision, which has the same
count-gated seeding) initialization seeds iff the store is empty: from an
empty store it creates exactly the four seed accounts with
`simpleHash`-encoded default secrets, and it leaves any non-empty store
untouched.  The server.js first revision instead upserts missing seed
accounts regardless of emptiness, and the part_000 base64 revision always
deletes and recreates the four seed accounts. -/
theorem c8_seed_iff_empty (store : List UserRow) (h : store ≠ []) :
    initializeDatabaseP001 [] =
      [⟨"admin", simpleHash "admin123", "Admin"⟩, ⟨"user", simpleHash "user123", "User"⟩,
       ⟨"agent", simpleHash "agent123", "Agent"⟩,
       ⟨"executive", simpleHash "executive123", "Executive"⟩] ∧
    initializeDatabaseP001 store = store := by
  constructor
  · rfl
  · unfold initializeDatabaseP001
    rw [if_neg]
    intro hc
    exact h (List.length_eq_zero.mp (eq_of_beq hc))

/-- C8 witness. -/
theorem c8_seed_iff_empty_witness :
    initializeDatabaseP001 [⟨"existing", "secret", "User"⟩] =
      [⟨"existing", "secret", "User"⟩] :=
  (c8_seed_iff_empty [⟨"existing", "secret", "User"⟩] (by decide)).2

/-- C6 counterexample: the claim says a login request with a missing field
gets a 400 client-error in every login route, but in part_001 a request
with a present, existing username and a missing password surfaces as a 500
internal error (the base64 encoder throws on `undefined`), not a 400. -/
theorem c6_counterexample :
    loginMigrateB64 [⟨"admin", simpleHash "admin123", "Admin"⟩] (some "admin") none =
      (serverError, [⟨"admin", simpleHash "admin123", "Admin"⟩]) ∧
    serverError.status = 500 ∧ serverError.status ≠ 400 := by
  decide

/-- C6 amended: only the bcrypt revision validates field presence: any
request with a missing (or empty, by JS falsiness) username or password is
answered 400 with the store untouched, before the verifier or migration
policy can run, and that outcome differs from the 401 authentication
failure.  In part_001 (and the other base64 revisions) there is no such
check: a missing username surfaces as the generic 401, and a missing
password with an existing username surfaces as a 500. -/
theorem c6_field_validation (salt : Nat) (store : List UserRow) (uf pf : Option String)
    (u : String) (a : UserRow)
    (hmiss : uf = none ∨ uf = some "" ∨ pf = none ∨ pf = some "")
    (ha : findUser store u = some a) :
    (loginBcrypt salt store uf pf = (missingFields, store) ∧
      missingFields.status = 400 ∧ authFail.status = 401 ∧ missingFields ≠ authFail) ∧
    loginMigrateB64 store none pf = (authFail, store) ∧
    loginMigrateB64 store (some u) none = (serverError, store) := by
  refine ⟨⟨?_, rfl, rfl, by decide⟩, ?_, ?_⟩
  · cases uf with
    | none => cases pf <;> rfl
    | some us =>
      cases pf with
      | none => rfl
      | some ps =>
        rw [loginBcrypt_some_some]
        rcases hmiss with h | h | h | h
        · exact absurd h (by simp)
        · have hu : us = "" := Option.some.inj h
          subst hu
          rw [if_pos]
          rw [show (("" : String) == "") = true from rfl]
          exact Bool.true_or _
        · exact absurd h (by simp)
        · have hp : ps = "" := Option.some.inj h
          subst hp
          rw [if_pos]
          rw [show (("" : String) == "") = true from rfl]
          exact Bool.or_true _
  · exact loginMigrateB64_none store pf
  · rw [loginMigrateB64_some_none, ha]

/-- C6 witness. -/
theorem c6_field_validation_witness :
    loginBcrypt 0 [⟨"admin", simpleHash "admin123", "Admin"⟩] (some "admin") none =
      (missingFields, [⟨"admin", simpleHash "admin123", "Admin"⟩]) :=
  ((c6_field_validation 0 [⟨"admin", simpleHash "admin123", "Admin"⟩] (some "admin") none
    "admin" ⟨"admin", simpleHash "admin123", "Admin"⟩
    (Or.inr (Or.inr (Or.inl rfl))) (by decide)).1).1

/-- C5: the failure response for an unknown username is identical (status
and body) to the failure response for an existing username with a
non-verifying, non-default password: both are the generic 401
`authFail`, in part_001 and in the server.js first revision. -/
theorem c5_uniform_failure (store : List UserRow) (u p u2 p2 : String) (a : UserRow)
    (h1 : findUser store u = none) (h2 : findUser store u2 = some a)
    (h3 : (simpleHash p2 == a.password) = false)
    (h4 : defaultPasswords u2 ≠ some p2) :
    loginMigrateB64 store (some u) (some p) = (authFail, store) ∧
    loginMigrateB64 store (some u2) (some p2) = (authFail, store) ∧
    loginServerJs store (some u) (some p) = (authFail, store) ∧
    loginServerJs store (some u2) (some p2) = (authFail, store) := by
  have hne : ¬((simpleHash p2 == a.password) = true) := by
    rw [h3]; exact Bool.false_ne_true
  refine ⟨?_, ?_, ?_, ?_⟩
  · rw [loginMigrateB64_some_some, h1]
  · rw [loginMigrateB64_some_some, h2]
    show (if (simpleHash p2 == a.password) = true then _ else _) = _
    rw [if_neg hne]
    cases hd : defaultPasswords u2 with
    | none => rfl
    | some d =>
      have hdp : ¬((d == p2) = true) := by
        intro hc
        exact h4 (by rw [hd, eq_of_beq hc])
      show (if (d == p2) = true then _ else _) = _
      rw [if_neg hdp]
  · rw [loginServerJs_some_some, h1]
  · rw [loginServerJs_some_some, h2]
    have hne2 : ¬(simpleCompare p2 a.password = true) := hne
    show (if (simpleCompare p2 a.password) = true then _ else _) = _
    rw [if_neg hne2]

/-- C5 witness. -/
theorem c5_uniform_failure_witness :
    loginMigrateB64 [⟨"admin", simpleHash "admin123", "Admin"⟩] (some "ghost") (some "pw") =
      (authFail, [⟨"admin", simpleHash "admin123", "Admin"⟩]) ∧
    loginMigrateB64 [⟨"admin", simpleHash "admin123", "Admin"⟩] (some "admin") (some "wrong") =
      (authFail, [⟨"admin", simpleHash "admin123", "Admin"⟩]) := by
  have h := c5_uniform_failure [⟨"admin", simpleHash "admin123", "Admin"⟩] "ghost" "pw"
    "admin" "wrong" ⟨"admin", simpleHash "admin123", "Admin"⟩
    (by decide) (by decide) (by decide) (by decide)
  exact ⟨h.1, h.2.1⟩

/-- Every entry of the legacy default table pairs a non-empty seed
username with a non-empty default secret. -/
theorem defaultPasswords_shape (u d : String) (h : defaultPasswords u = some d) :
    (u == "") = false ∧ (d == "") = false := by
  unfold defaultPasswords at h
  by_cases h1 : ((u == "admin") = true)
  · rw [if_pos h1] at h
    rw [eq_of_beq h1, ← Option.some.inj h]
    exact ⟨by decide, by decide⟩
  · rw [if_neg h1] at h
    by_cases h2 : ((u == "user") = true)
    · rw [if_pos h2] at h
      rw [eq_of_beq h2, ← Option.some.inj h]
      exact ⟨by decide, by decide⟩
    · rw [if_neg h2] at h
      by_cases h3 : ((u == "agent") = true)
      · rw [if_pos h3] at h
        rw [eq_of_beq h3, ← Option.some.inj h]
        exact ⟨by decide, by decide⟩
      · rw [if_neg h3] at h
        by_cases h4 : ((u == "executive") = true)
        · rw [if_pos h4] at h
          rw [eq_of_beq h4, ← Option.some.inj h]
          exact ⟨by decide, by decide⟩
        · rw [if_neg h4] at h
          exact Option.noConfusion h

/-- C3: in the bcrypt revision, when account "admin" is stored with the
legacy base64 encoding of "admin123", logging in with "admin123" succeeds
as a migrated login and replaces the stored representation with a
strong-scheme encoding, which differs from the legacy encoding (for every
salt the library may draw). -/
theorem c3_migration_replaces_legacy (salt : Nat) :
    loginBcrypt salt [⟨"admin", simpleHash "admin123", "Admin"⟩]
        (some "admin") (some "admin123") =
      (loginMigrated "admin" "Admin",
        [⟨"admin", hashPassword salt "admin123", "Admin"⟩]) ∧
    hashPassword salt "admin123" ≠ simpleHash "admin123" := by
  constructor
  · rw [loginBcrypt_some_some]
    rw [if_neg (by decide)]
    rw [show findUser [⟨"admin", simpleHash "admin123", "Admin"⟩] "admin"
        = some ⟨"admin", simpleHash "admin123", "Admin"⟩ from by decide]
    have hv : ¬(verifyPassword "admin123"
        (⟨"admin", simpleHash "admin123", "Admin"⟩ : UserRow).password = true) := by
      rw [show (⟨"admin", simpleHash "admin123", "Admin"⟩ : UserRow).password
          = simpleHash "admin123" from rfl, verifyPassword_simpleHash]
      exact Bool.false_ne_true
    show (if verifyPassword "admin123"
        (⟨"admin", simpleHash "admin123", "Admin"⟩ : UserRow).password = true
      then _ else _) = _
    rw [if_neg hv]
    rw [show defaultPasswords "admin" = some "admin123" from rfl]
    show (if (("admin123" : String) == "admin123") = true then _ else _) = _
    rw [if_pos (beq_self_eq_true _)]
    show (loginMigrated "admin" "Admin",
        updateUserPassword [⟨"admin", simpleHash "admin123", "Admin"⟩] "admin"
          (hashPassword salt "admin123")) = _
    unfold updateUserPassword
    rw [List.map_cons, List.map_nil]
    rw [if_pos (by decide : ((⟨"admin", simpleHash "admin123", "Admin"⟩ : UserRow).username
        == "admin") = true)]
  · exact hashPassword_ne_simpleHash salt "admin123" "admin123"

/-- C10: for an existing account whose username has a legacy default and
whose stored representation does not verify the default secret — whatever
that stored value is, including a deliberately changed credential — a
login with the default secret succeeds as a migrated login and overwrites
the stored representation with a fresh encoding of the default, in
part_001 and in the bcrypt revision. -/
theorem c10_default_backdoor (store : List UserRow) (u d : String) (a : UserRow) (salt : Nat)
    (ha : findUser store u = some a) (hd : defaultPasswords u = some d)
    (h1 : (simpleHash d == a.password) = false)
    (h2 : verifyPassword d a.password = false) :
    loginMigrateB64 store (some u) (some d) =
      (loginMigrated a.username a.role, updateUserPassword store u (simpleHash d)) ∧
    loginBcrypt salt store (some u) (some d) =
      (loginMigrated a.username a.role, updateUserPassword store u (hashPassword salt d)) := by
  obtain ⟨hu0, hd0⟩ := defaultPasswords_shape u d hd
  have h1n : ¬((simpleHash d == a.password) = true) := by
    rw [h1]; exact Bool.false_ne_true
  have h2n : ¬(verifyPassword d a.password = true) := by
    rw [h2]; exact Bool.false_ne_true
  constructor
  · rw [loginMigrateB64_some_some, ha]
    show (if (simpleHash d == a.password) = true then _ else _) = _
    rw [if_neg h1n, hd]
    show (if (d == d) = true then _ else _) = _
    rw [if_pos (beq_self_eq_true _)]
  · rw [loginBcrypt_some_some]
    rw [if_neg (by rw [hu0, hd0]; exact Bool.false_ne_true)]
    rw [ha]
    show (if verifyPassword d a.password = true then _ else _) = _
    rw [if_neg h2n, hd]
    show (if (d == d) = true then _ else _) = _
    rw [if_pos (beq_self_eq_true _)]

/-- C10 witness. -/
theorem c10_default_backdoor_witness :
    loginMigrateB64 [⟨"admin", simpleHash "changed", "Admin"⟩] (some "admin") (some "admin123") =
      (loginMigrated "admin" "Admin", [⟨"admin", simpleHash "admin123", "Admin"⟩]) := by
  have h := (c10_default_backdoor [⟨"admin", simpleHash "changed", "Admin"⟩] "admin" "admin123"
    ⟨"admin", simpleHash "changed", "Admin"⟩ 0 (by decide) (by decide) (by decide) (by decide)).1
  exact h.trans (by decide)

/-- C1 counterexample: the claim promises SUCCESS whenever the verifier
accepts, for any store containing the account, but the bcrypt revision's
falsy field check fires first: with account "admin" stored as a
strong-scheme encoding of the empty string, the verifier accepts
("", stored), yet login returns the 400 missing-fields response, not
SUCCESS. -/
theorem c1_counterexample :
    verifyPassword "" (hashPassword 0 "") = true ∧
    findUser [⟨"admin", hashPassword 0 "", "Admin"⟩] "admin"
      = some ⟨"admin", hashPassword 0 "", "Admin"⟩ ∧
    loginBcrypt 0 [⟨"admin", hashPassword 0 "", "Admin"⟩] (some "admin") (some "") =
      (missingFields, [⟨"admin", hashPassword 0 "", "Admin"⟩]) ∧
    missingFields ≠ loginOk "admin" "Admin" := by
  decide

/-- C1 amended: for a store containing an account for the username, the
login call behaves exactly as the claim's three-way policy states —
verifier accepts ⇒ plain SUCCESS with the store unchanged; otherwise
legacy default matches ⇒ migrated SUCCESS with the re-encoded secret
persisted; otherwise the generic failure with the store unchanged — in
part_001 unconditionally, and in the bcrypt revision provided username
and plaintext are non-empty (empty strings are rejected as missing fields
before the verifier runs). -/
theorem c1_attempt_login (store : List UserRow) (u p : String) (a : UserRow) (salt : Nat)
    (ha : findUser store u = some a) :
    ((simpleHash p == a.password) = true →
        loginMigrateB64 store (some u) (some p) = (loginOk a.username a.role, store)) ∧
    ((simpleHash p == a.password) = false → defaultPasswords u = some p →
        loginMigrateB64 store (some u) (some p) =
          (loginMigrated a.username a.role, updateUserPassword store u (simpleHash p))) ∧
    ((simpleHash p == a.password) = false → defaultPasswords u ≠ some p →
        loginMigrateB64 store (some u) (some p) = (authFail, store)) ∧
    (u ≠ "" → p ≠ "" → verifyPassword p a.password = true →
        loginBcrypt salt store (some u) (some p) = (loginOk a.username a.role, store)) ∧
    (u ≠ "" → p ≠ "" → verifyPassword p a.password = false → defaultPasswords u = some p →
        loginBcrypt salt store (some u) (some p) =
          (loginMigrated a.username a.role, updateUserPassword store u (hashPassword salt p))) ∧
    (u ≠ "" → p ≠ "" → verifyPassword p a.password = false → defaultPasswords u ≠ some p →
        loginBcrypt salt store (some u) (some p) = (authFail, store)) := by
  have hbne : ∀ hu0 : u ≠ "", ∀ hp0 : p ≠ "", ¬(((u == "") || (p == "")) = true) := by
    intro hu0 hp0
    rw [beq_eq_false_iff_ne.mpr hu0, beq_eq_false_iff_ne.mpr hp0]
    exact Bool.false_ne_true
  refine ⟨?_, ?_, ?_, ?_, ?_, ?_⟩
  · intro hv
    rw [loginMigrateB64_some_some, ha]
    show (if (simpleHash p == a.password) = true then _ else _) = _
    rw [if_pos hv]
  · intro hv hdp
    have hvn : ¬((simpleHash p == a.password) = true) := by
      rw [hv]; exact Bool.false_ne_true
    rw [loginMigrateB64_some_some, ha]
    show (if (simpleHash p == a.password) = true then _ else _) = _
    rw [if_neg hvn, hdp]
    show (if (p == p) = true then _ else _) = _
    rw [if_pos (beq_self_eq_true _)]
  · intro hv hdp
    have hvn : ¬((simpleHash p == a.password) = true) := by
      rw [hv]; exact Bool.false_ne_true
    rw [loginMigrateB64_some_some, ha]
    show (if (simpleHash p == a.password) = true then _ else _) = _
    rw [if_neg hvn]
    cases hd : defaultPasswords u with
    | none => rfl
    | some d =>
      have hdn : ¬((d == p) = true) := by
        intro hc
        exact hdp (by rw [hd, eq_of_beq hc])
      show (if (d == p) = true then _ else _) = _
      rw [if_neg hdn]
  · intro hu0 hp0 hv
    rw [loginBcrypt_some_some, if_neg (hbne hu0 hp0), ha]
    show (if verifyPassword p a.password = true then _ else _) = _
    rw [if_pos hv]
  · intro hu0 hp0 hv hdp
    have hvn : ¬(verifyPassword p a.password = true) := by
      rw [hv]; exact Bool.false_ne_true
    rw [loginBcrypt_some_some, if_neg (hbne hu0 hp0), ha]
    show (if verifyPassword p a.password = true then _ else _) = _
    rw [if_neg hvn, hdp]
    show (if (p == p) = true then _ else _) = _
    rw [if_pos (beq_self_eq_true _)]
  · intro hu0 hp0 hv hdp
    have hvn : ¬(verifyPassword p a.password = true) := by
      rw [hv]; exact Bool.false_ne_true
    rw [loginBcrypt_some_some, if_neg (hbne hu0 hp0), ha]
    show (if verifyPassword p a.password = true then _ else _) = _
    rw [if_neg hvn]
    cases hd : defaultPasswords u with
    | none => rfl
    | some d =>
      have hdn : ¬((d == p) = true) := by
        intro hc
        exact hdp (by rw [hd, eq_of_beq hc])
      show (if (d == p) = true then _ else _) = _
      rw [if_neg hdn]

/-- C1 witness. -/
theorem c1_attempt_login_witness :
    loginMigrateB64 [⟨"admin", simpleHash "admin123", "Admin"⟩] (some "admin") (some "admin123") =
      (loginOk "admin" "Admin", [⟨"admin", simpleHash "admin123", "Admin"⟩]) :=
  (c1_attempt_login [⟨"admin", simpleHash "admin123", "Admin"⟩] "admin" "admin123"
    ⟨"admin", simpleHash "admin123", "Admin"⟩ 0
    (by decide)).1 (by decide)

/-- C7 counterexample: the migration branch is *not* unreachable after a
migration.  Concretely, in part_001: account "admin" with a stale stored
value is migrated by login("admin","admin123"); a change-password then
rewrites the credential; after that, login("admin","admin123") takes the
legacy-default migration branch *again* (it answers with the migrated
message and overwrites the credential once more), although the account had
already been migrated in a reachable earlier state. -/
theorem c7_counterexample :
    loginMigrateB64 [⟨"admin", "stale", "Admin"⟩] (some "admin") (some "admin123") =
      (loginMigrated "admin" "Admin", [⟨"admin", simpleHash "admin123", "Admin"⟩]) ∧
    changePasswordP001 [⟨"admin", simpleHash "admin123", "Admin"⟩]
        "admin" "admin123" "newsecret" =
      ({ status := 200, message := some "Password changed successfully" },
        [⟨"admin", simpleHash "newsecret", "Admin"⟩]) ∧
    loginMigrateB64 [⟨"admin", simpleHash "newsecret", "Admin"⟩]
        (some "admin") (some "admin123") =
      (loginMigrated "admin" "Admin", [⟨"admin", simpleHash "admin123", "Admin"⟩]) := by
  decide

/-- C7 amended: immediately after a migrated login with plaintext `p` —
with no intervening credential write — a repeated login with `p` succeeds
directly at the verification step (plain success message, i.e.
migrated=false) and leaves the store unchanged, in part_001 and in the
bcrypt revision; the migration branch can become reachable again only if
the account's credential is rewritten in between. -/
theorem c7_no_remigration_without_write (store : List UserRow) (u p : String)
    (salt salt2 : Nat) :
    (((loginMigrateB64 store (some u) (some p)).1.message
        = some "Login successful (password migrated)") →
      ((loginMigrateB64 (loginMigrateB64 store (some u) (some p)).2
            (some u) (some p)).1.message = some "Login successful" ∧
        (loginMigrateB64 (loginMigrateB64 store (some u) (some p)).2
            (some u) (some p)).2 = (loginMigrateB64 store (some u) (some p)).2)) ∧
    (((loginBcrypt salt store (some u) (some p)).1.message
        = some "Login successful (password migrated)") →
      ((loginBcrypt salt2 (loginBcrypt salt store (some u) (some p)).2
            (some u) (some p)).1.message = some "Login successful" ∧
        (loginBcrypt salt2 (loginBcrypt salt store (some u) (some p)).2
            (some u) (some p)).2 = (loginBcrypt salt store (some u) (some p)).2)) := by
  constructor
  · intro h
    cases hf : findUser store u with
    | none =>
      have hrun : loginMigrateB64 store (some u) (some p) = (authFail, store) := by
        rw [loginMigrateB64_some_some, hf]
      rw [hrun] at h
      exact Option.noConfusion h
    | some user =>
      by_cases h1 : ((simpleHash p == user.password) = true)
      · have hrun : loginMigrateB64 store (some u) (some p)
            = (loginOk user.username user.role, store) := by
          rw [loginMigrateB64_some_some, hf]
          show (if (simpleHash p == user.password) = true then _ else _) = _
          rw [if_pos h1]
        rw [hrun] at h
        exact absurd (Option.some.inj h) (by decide)
      · have h1n : ¬((simpleHash p == user.password) = true) := h1
        cases hd : defaultPasswords u with
        | none =>
          have hrun : loginMigrateB64 store (some u) (some p) = (authFail, store) := by
            rw [loginMigrateB64_some_some, hf]
            show (if (simpleHash p == user.password) = true then _ else _) = _
            rw [if_neg h1n, hd]
          rw [hrun] at h
          exact Option.noConfusion h
        | some d =>
          by_cases h2 : ((d == p) = true)
          · have hrun : loginMigrateB64 store (some u) (some p)
                = (loginMigrated user.username user.role,
                    updateUserPassword store u (simpleHash p)) := by
              rw [loginMigrateB64_some_some, hf]
              show (if (simpleHash p == user.password) = true then _ else _) = _
              rw [if_neg h1n, hd]
              show (if (d == p) = true then _ else _) = _
              rw [if_pos h2]
            rw [hrun]
            have hfind2 : findUser (updateUserPassword store u (simpleHash p)) u
                = some { user with password := simpleHash p } := by
              rw [findUser_updateUserPassword, hf]
              rfl
            have hrun2 : loginMigrateB64 (updateUserPassword store u (simpleHash p))
                  (some u) (some p)
                = (loginOk user.username user.role,
                    updateUserPassword store u (simpleHash p)) := by
              rw [loginMigrateB64_some_some, hfind2]
              show (if (simpleHash p ==
                  ({ user with password := simpleHash p } : UserRow).password) = true
                then _ else _) = _
              rw [if_pos (beq_self_eq_true _)]
            rw [hrun2]
            exact ⟨rfl, rfl⟩
          · have h2n : ¬((d == p) = true) := h2
            have hrun : loginMigrateB64 store (some u) (some p) = (authFail, store) := by
              rw [loginMigrateB64_some_some, hf]
              show (if (simpleHash p == user.password) = true then _ else _) = _
              rw [if_neg h1n, hd]
              show (if (d == p) = true then _ else _) = _
              rw [if_neg h2n]
            rw [hrun] at h
            exact Option.noConfusion h
  · intro h
    by_cases hb : (((u == "") || (p == "")) = true)
    · have hrun : loginBcrypt salt store (some u) (some p) = (missingFields, store) := by
        rw [loginBcrypt_some_some, if_pos hb]
      rw [hrun] at h
      exact Option.noConfusion h
    · cases hf : findUser store u with
      | none =>
        have hrun : loginBcrypt salt store (some u) (some p) = (authFail, store) := by
          rw [loginBcrypt_some_some, if_neg hb, hf]
        rw [hrun] at h
        exact Option.noConfusion h
      | some user =>
        by_cases h1 : (verifyPassword p user.password = true)
        · have hrun : loginBcrypt salt store (some u) (some p)
              = (loginOk user.username user.role, store) := by
            rw [loginBcrypt_some_some, if_neg hb, hf]
            show (if verifyPassword p user.password = true then _ else _) = _
            rw [if_pos h1]
          rw [hrun] at h
          exact absurd (Option.some.inj h) (by decide)
        · have h1n : ¬(verifyPassword p user.password = true) := h1
          cases hd : defaultPasswords u with
          | none =>
            have hrun : loginBcrypt salt store (some u) (some p) = (authFail, store) := by
              rw [loginBcrypt_some_some, if_neg hb, hf]
              show (if verifyPassword p user.password = true then _ else _) = _
              rw [if_neg h1n, hd]
            rw [hrun] at h
            exact Option.noConfusion h
          | some d =>
            by_cases h2 : ((d == p) = true)
            · have hrun : loginBcrypt salt store (some u) (some p)
                  = (loginMigrated user.username user.role,
                      updateUserPassword store u (hashPassword salt p)) := by
                rw [loginBcrypt_some_some, if_neg hb, hf]
                show (if verifyPassword p user.password = true then _ else _) = _
                rw [if_neg h1n, hd]
                show (if (d == p) = true then _ else _) = _
                rw [if_pos h2]
              rw [hrun]
              have hfind2 : findUser (updateUserPassword store u (hashPassword salt p)) u
                  = some { user with password := hashPassword salt p } := by
                rw [findUser_updateUserPassword, hf]
                rfl
              have hv2 : (verifyPassword p
                  ({ user with password := hashPassword salt p } : UserRow).password) = true :=
                verifyPassword_hashPassword salt p
              have hrun2 : loginBcrypt salt2 (updateUserPassword store u (hashPassword salt p))
                    (some u) (some p)
                  = (loginOk user.username user.role,
                      updateUserPassword store u (hashPassword salt p)) := by
                rw [loginBcrypt_some_some, if_neg hb, hfind2]
                show (if verifyPassword p
                    ({ user with password := hashPassword salt p } : UserRow).password = true
                  then _ else _) = _
                rw [if_pos hv2]
              rw [hrun2]
              exact ⟨rfl, rfl⟩
            · have h2n : ¬((d == p) = true) := h2
              have hrun : loginBcrypt salt store (some u) (some p) = (authFail, store) := by
                rw [loginBcrypt_some_some, if_neg hb, hf]
                show (if verifyPassword p user.password = true then _ else _) = _
                rw [if_neg h1n, hd]
                show (if (d == p) = true then _ else _) = _
                rw [if_neg h2n]
              rw [hrun] at h
              exact Option.noConfusion h

/-- C7 witness. -/
theorem c7_no_remigration_without_write_witness :
    (loginMigrateB64 (loginMigrateB64 [⟨"admin", "stale", "Admin"⟩]
          (some "admin") (some "admin123")).2 (some "admin") (some "admin123")).1.message
        = some "Login successful" ∧
    (loginMigrateB64 (loginMigrateB64 [⟨"admin", "stale", "Admin"⟩]
          (some "admin") (some "admin123")).2 (some "admin") (some "admin123")).2
        = (loginMigrateB64 [⟨"admin", "stale", "Admin"⟩]
            (some "admin") (some "admin123")).2 :=
  (c7_no_remigration_without_write [⟨"admin", "stale", "Admin"⟩] "admin" "admin123" 0 1).1
    (by decide)
